import Mathlib

/-!
Shallow embedding of the ACCANA2 accreditation-analyzer core in Lean 4.

The definitions below are translated from the TypeScript sources:
* `AccreditationAnalyzer` (the standards catalog, `handleSubmitAnalysis`
  with its `normalizeId` reconciliation, percentage clamping, reasoning
  backfill, all-settled aggregation, and the submission workflow handlers
  `handleSubmitForReview` / `handleLoadForRevision`),
* `Login` (`handleSubmit`, case-insensitive lookup with hardcoded seed
  credential fallback),
* `InternalMessagesModal` (`markMessageAsRead`).

JavaScript semantics are made explicit: optional / possibly-absent JSON
fields become `Option`, JS falsiness of strings (`undefined`, `null`, `""`)
is modelled by `jsOr` / emptiness tests, JSON numbers are modelled as `Int`
(the response schema declares integers), and thrown exceptions become
`Except.error` carrying the message string.
-/

namespace Accana

/-! ### Users and roles (`App.tsx`, `Login.tsx`) -/

inductive UserRole where
  | Admin
  | UniversityLead
  | UniversityID
deriving DecidableEq, Repr, BEq

structure User where
  username : String
  role : UserRole
deriving DecidableEq, Repr

/-- Users stored in the registry; password kept in plain text (demo). -/
structure StoredUser where
  username : String
  role : UserRole
  password : Option String
deriving DecidableEq, Repr

/-- JS `String.prototype.toLowerCase` restricted to the character-wise case map. -/
def toLowerStr (s : String) : String := String.mk (s.data.map Char.toLower)

/-- JS `String.prototype.trim()`, i.e. the string with leading and
trailing whitespace removed, computed on the character list. -/
def jsTrim (s : String) : String :=
  String.mk (((s.data.dropWhile Char.isWhitespace).reverse.dropWhile
    Char.isWhitespace).reverse)

/-- JS `a || d` for a possibly-absent string: `undefined`, `null` and `""`
are falsy and give the default. -/
def jsOr (o : Option String) (d : String) : String :=
  match o with
  | none => d
  | some s => if s = "" then d else s

/-! ### Standards catalog (`ACCREDITATION_BODIES` in `AccreditationAnalyzer`) -/

structure Standard where
  id : String
  name : String
  description : String
deriving DecidableEq, Repr

structure AccreditationBody where
  key : String
  name : String
  standards : List Standard
deriving DecidableEq, Repr

def adaBody : AccreditationBody :=
  { key := "ADA"
    name := "American Dental Association (ADA CODA)"
    standards := [
      { id := "ADA-1.1", name := "Curriculum Management & Evaluation", description := "Programs must demonstrate effective curriculum planning, review, and evaluation processes to ensure content is current, comprehensive, and well-organized." },
      { id := "ADA-2.3", name := "Patient Care Competencies", description := "Graduates must be competent in providing comprehensive patient care, including assessment, diagnosis, treatment planning, and management of diverse patient populations." },
      { id := "ADA-3.5", name := "Ethical Reasoning and Professional Conduct", description := "Students and graduates must demonstrate understanding and application of ethical principles and professional conduct in all aspects of dental practice." },
      { id := "ADA-4.1", name := "Faculty and Staff Qualifications", description := "Programs must have a sufficient number of qualified faculty and staff to support the educational program and its objectives." },
      { id := "ADA-5.2", name := "Learning Environment and Resources", description := "The program must provide a safe and supportive learning environment with adequate physical resources, facilities, and student support services." },
      { id := "ADA-6.0", name := "Research and Scholarly Activity", description := "Programs should foster an environment that encourages research and scholarly activity among students and faculty." }
    ] }

def gdcBody : AccreditationBody :=
  { key := "GDC"
    name := "General Dental Council (GDC)"
    standards := [
      { id := "GDC-1.0", name := "Clinical Safety and Effectiveness", description := "Registrants must practise safely and effectively, ensuring patient safety at all times." },
      { id := "GDC-2.0", name := "Communication", description := "Registrants must communicate effectively with patients, colleagues, and others." },
      { id := "GDC-3.0", name := "Professionalism", description := "Registrants must maintain appropriate professional behaviour, ethics, and integrity." },
      { id := "GDC-4.0", name := "Continuing Professional Development (CPD)", description := "Registrants must engage in ongoing CPD to maintain and develop their knowledge and skills." },
      { id := "GDC-5.0", name := "Teamworking", description := "Registrants must work effectively with other members of the dental team and wider healthcare professionals." }
    ] }

def ncaaaBody : AccreditationBody :=
  { key := "NCAAA"
    name := "National Center for Academic Accreditation and Assessment (NCAAA - ETEC)"
    standards := [
      { id := "NCAAA-S1", name := "Mission and Goals", description := "The program must have a clear mission and goals that are aligned with institutional and national priorities." },
      { id := "NCAAA-S2", name := "Program Management and Quality Assurance", description := "The program must have effective leadership, governance, and quality assurance processes." },
      { id := "NCAAA-S3", name := "Curriculum", description := "The program curriculum must be appropriate, current, and effectively delivered." },
      { id := "NCAAA-S4", name := "Learning and Teaching", description := "The program must ensure high-quality learning and teaching through appropriate strategies, resources, and assessment." },
      { id := "NCAAA-S5", name := "Student Administration and Support Services", description := "The program must provide adequate support services for students, including admission, academic advising, and counseling." },
      { id := "NCAAA-S6", name := "Learning Resources", description := "The program must have access to adequate learning resources, including libraries, laboratories, and IT infrastructure." },
      { id := "NCAAA-S7", name := "Facilities and Equipment", description := "The program must have appropriate physical facilities and equipment to support its activities." },
      { id := "NCAAA-S8", name := "Faculty and Staff", description := "The program must have qualified and sufficient faculty and staff." },
      { id := "NCAAA-S9", name := "Research", description := "The program should promote and support research activities relevant to its field." },
      { id := "NCAAA-S10", name := "Community Engagement", description := "The program should contribute to the community through service and engagement." },
      { id := "NCAAA-S11", name := "Program Evaluation and Improvement", description := "The program must have systematic processes for evaluation and continuous improvement." }
    ] }

def ACCREDITATION_BODIES : List AccreditationBody := [adaBody, gdcBody, ncaaaBody]

/-! ### AI response reconciliation (`handleSubmitAnalysis`) -/

/-- A JSON value in a `matchPercentage` position: a number, a string, or
absent/null.  The response schema declares integers, so numbers are `Int`. -/
inductive JVal where
  | jnum (n : Int)
  | jstr (s : String)
  | jnull
deriving DecidableEq, Repr

/-- Test `typeof item.matchPercentage === "number"`. -/
def JVal.isNumber : JVal → Bool
  | .jnum _ => true
  | _ => false

/-- Clamping `typeof x === "number" ? Math.max(0, Math.min(100, x)) : 0`. -/
def clampPct : JVal → Int
  | .jnum n => max 0 (min 100 n)
  | _ => 0

/-- One element of the `results` array as returned by the AI call, before
reconciliation.  String fields may be absent (`undefined`). -/
structure RawResultItem where
  standardId : Option String
  standardName : Option String
  matchPercentage : JVal
  improvementFeedback : Option String
  reasoning : Option String
deriving DecidableEq, Repr

structure AnalysisResultItem where
  standardId : String
  standardName : String
  matchPercentage : Int
  improvementFeedback : String
  reasoning : Option String
deriving DecidableEq, Repr

structure AnalysisResultsGroup where
  accreditationBodyKey : String
  accreditationBodyName : String
  items : List AnalysisResultItem
deriving DecidableEq, Repr

/-- Source `const normalizeId = (id) => id ? id.toLowerCase().replace(whitespace, "").replace(hyphens, "") : ""`.
Lower-case every character, then drop whitespace, then drop hyphens.
(On the empty string the JS falsy branch and this definition agree.) -/
def normalizeId (id : String) : String :=
  String.mk (((id.data.map Char.toLower).filter (fun c => !c.isWhitespace)).filter
    (fun c => c != '-'))

/-- Fallback part of `item.reasoning || ((typeof item.matchPercentage === "number" && item.matchPercentage < 75) ? "Reasoning not explicitly provided by AI." : undefined)`
- the parenthesised fallback alone. -/
def reasoningFallback (mp : JVal) : Option String :=
  match mp with
  | .jnum n => if n < 75 then some "Reasoning not explicitly provided by AI." else none
  | _ => none

/-- The body of the `parsedData.results.map((item) => ...)` callback in
`handleSubmitAnalysis`. -/
def reconcileItem (body : AccreditationBody) (item : RawResultItem) : AnalysisResultItem :=
  let originalApiStandardId := item.standardId
  let matchedStandard := body.standards.find?
    (fun s => normalizeId s.id == normalizeId (originalApiStandardId.getD ""))
  { standardId :=
      match matchedStandard with
      | some std => std.id
      | none => jsOr originalApiStandardId "N/A"
    standardName :=
      match matchedStandard with
      | some std => std.name
      | none => jsOr item.standardName "Unknown Standard"
    matchPercentage := clampPct item.matchPercentage
    improvementFeedback := jsOr item.improvementFeedback "No feedback provided."
    reasoning :=
      match item.reasoning with
      | some r => if r = "" then reasoningFallback item.matchPercentage else some r
      | none => reasoningFallback item.matchPercentage }

/-- Outcome of the AI call plus JSON decoding for one body, before the
`parsedData.results` check. -/
inductive AiResponse where
  /-- Call `ai.models.generateContent` or `JSON.parse` threw with this message. -/
  | threw (msg : String)
  /-- Decoding succeeded; `some items` when `parsedData.results` is an
  array, `none` when the `results` key is missing or not an array. -/
  | parsed (results : Option (List RawResultItem))
deriving Repr

/-- The per-body promise of `handleSubmitAnalysis` from response decoding
onwards: build the result group or reject with an error message. -/
def processBody (body : AccreditationBody) (resp : AiResponse) :
    Except String AnalysisResultsGroup :=
  match resp with
  | .threw msg => .error msg
  | .parsed none =>
      .error ("Invalid JSON structure in API response for " ++ body.name ++
        ". Expected results array.")
  | .parsed (some rawItems) =>
      .ok { accreditationBodyKey := body.key
            accreditationBodyName := body.name
            items := (rawItems.map (reconcileItem body)).filter
              (fun it => it.standardId != "N/A") }

/-! ### All-settled aggregation (`handleSubmitAnalysis`, `Promise.allSettled` block) -/

/-- The fulfilled values of the settled per-body promises, in order
(`successfulResults`). -/
def successesOf (outcomes : List (Except String AnalysisResultsGroup)) :
    List AnalysisResultsGroup :=
  outcomes.filterMap (fun o => match o with | .ok g => some g | .error _ => none)

/-- The rejection messages of the settled per-body promises, in order. -/
def failuresOf (outcomes : List (Except String AnalysisResultsGroup)) : List String :=
  outcomes.filterMap (fun o => match o with | .ok _ => none | .error m => some m)

/-- The warning appended to the error banner for one rejected body. -/
def perBodyWarning (msg : String) : String :=
  "Analysis failed for one or more accreditation bodies: " ++ msg

/-- Update `setError(prev => (prev ? prev + "\n" : "") + warning)` for one rejection. -/
def accumulateError (prev : Option String) (msg : String) : Option String :=
  match prev with
  | none => some (perBodyWarning msg)
  | some p => some (p ++ "\n" ++ perBodyWarning msg)

/-- The `settledResults.forEach` walk over the outcomes, threading the error
banner (which starts out as `null` from `setError(null)`). -/
def accumErrors : Option String → List (Except String AnalysisResultsGroup) → Option String
  | acc, [] => acc
  | acc, .ok _ :: rest => accumErrors acc rest
  | acc, .error m :: rest => accumErrors (accumulateError acc m) rest

def allFailedMsg : String :=
  "Failed to analyze content for all selected accreditation bodies. Please check your input or try again later."

/-- The aggregation tail of `handleSubmitAnalysis`: the displayed results
(`null` unless some body succeeded) and the final error banner (the
accumulated per-body warnings, overwritten by the aggregate message when
every body failed). -/
def aggregateSettled (outcomes : List (Except String AnalysisResultsGroup)) :
    Option (List AnalysisResultsGroup) × Option String :=
  let successfulResults := successesOf outcomes
  let banner := accumErrors none outcomes
  let encounteredError := !(failuresOf outcomes).isEmpty
  let finalBanner :=
    if successfulResults.isEmpty && encounteredError then some allFailedMsg else banner
  let results : Option (List AnalysisResultsGroup) :=
    if successfulResults.isEmpty then none else some successfulResults
  (results, finalBanner)

/-- The text following the first warning in a banner that enumerates the
warnings for `msgs`, newline-separated. -/
def suffixWarnings : List String → String
  | [] => ""
  | m :: ms => "\n" ++ perBodyWarning m ++ suffixWarnings ms

/-- The full error banner enumerating one warning per failure message. -/
def warningsText : List String → Option String
  | [] => none
  | m :: ms => some (perBodyWarning m ++ suffixWarnings ms)

/-! ### Login (`Login.tsx`, `handleSubmit`) -/

/-- Handler `handleSubmit` of the login form: case-insensitive lookup in the stored
registry, plain-text password comparison, hardcoded seed-credential
fallback when the username is not found. -/
def login (storedUsers : List StoredUser) (username password : String) :
    Except String User :=
  match storedUsers.find? (fun u => toLowerStr u.username == toLowerStr username) with
  | some foundUser =>
      if foundUser.password = some password then .ok ⟨foundUser.username, foundUser.role⟩
      else .error "Invalid username or password."
  | none =>
      if toLowerStr username = "admin" ∧ password = "adminpass" then
        .ok ⟨"admin", UserRole.Admin⟩
      else if toLowerStr username = "lead" ∧ password = "leadpass" then
        .ok ⟨"lead", UserRole.UniversityLead⟩
      else .error "Invalid username or password."

/-! ### Internal messages (`InternalMessagesModal.tsx`) -/

inductive RecipientKind where
  | user
  | role
deriving DecidableEq, Repr

structure RecipientIdentifier where
  type : RecipientKind
  value : String
deriving DecidableEq, Repr

structure InternalMessage where
  id : String
  senderUsername : String
  senderRole : UserRole
  recipientIdentifier : RecipientIdentifier
  subject : String
  body : String
  timestamp : String
  readBy : List String
deriving DecidableEq, Repr

/-- The JS object update `{ ...readBy, [username]: true }` on the `readBy`
map, viewed as the set of usernames mapped to `true`: an existing key keeps
its position, a new key is appended. -/
def jsReadByInsert (readBy : List String) (username : String) : List String :=
  if username ∈ readBy then readBy else readBy ++ [username]

/-- Handler `markMessageAsRead` of `InternalMessagesModal`: add the current user to
the targeted message's `readBy` map, leaving every other message alone. -/
def markMessageAsRead (msgs : List InternalMessage) (messageId : String)
    (username : String) : List InternalMessage :=
  msgs.map (fun m =>
    if m.id = messageId then { m with readBy := jsReadByInsert m.readBy username }
    else m)

/-! ### Submission workflow (`AccreditationAnalyzer`) -/

inductive SubStatus where
  | pending
  | approved
  | rejected
deriving DecidableEq, Repr, BEq

structure SubmissionNote where
  «by» : String
  role : UserRole
  timestamp : String
  text : String
deriving DecidableEq, Repr

structure Submission where
  id : String
  submittedByUsername : String
  submittedByUserRole : UserRole
  submittedAt : String
  programContent : String
  programContentLanguage : String
  analysisResults : List AnalysisResultsGroup
  selectedBodyKeys : List String
  status : SubStatus
  notes : List SubmissionNote
deriving DecidableEq, Repr

/-- State `revisingSubmissionInfo` of `AccreditationAnalyzer`. -/
structure RevisingInfo where
  id : String
  originalStatus : SubStatus
  notes : List SubmissionNote
deriving DecidableEq, Repr

/-- The session state of one `AccreditationAnalyzer` component instance
together with the shared submissions collection of the persistent store. -/
structure SessionState where
  submissions : List Submission
  analysisResults : Option (List AnalysisResultsGroup)
  programContent : String
  selectedBodyKeys : List String
  revisingSubmissionInfo : Option RevisingInfo
  hasPendingSubmission : Bool
deriving Repr

/-- How many submissions in the store are pending and belong to `u`. -/
def countPendingBy (u : String) (subs : List Submission) : Nat :=
  subs.countP (fun s => decide (s.submittedByUsername = u ∧ s.status = SubStatus.pending))

/-- The guard sequence at the top of `handleSubmitAnalysis` (lines 398-409):
the error shown, or `none` when the analysis proceeds. -/
def analysisGateError (role : UserRole) (s : SessionState) : Option String :=
  if jsTrim s.programContent = "" then
    some "Please enter or upload program content."
  else if s.selectedBodyKeys = [] then
    some "Please select at least one accreditation body."
  else if s.hasPendingSubmission = true ∧ role = UserRole.UniversityID ∧
      s.revisingSubmissionInfo = none then
    some "You have a submission pending review. Cannot start a new analysis."
  else none

/-- The submission appended by `handleSubmitForReview`. -/
def newSubmission (u : String) (role : UserRole) (newId ts lang : String)
    (s : SessionState) (rs : List AnalysisResultsGroup) : Submission :=
  { id := newId
    submittedByUsername := u
    submittedByUserRole := role
    submittedAt := ts
    programContent := s.programContent
    programContentLanguage := lang
    analysisResults := rs
    selectedBodyKeys := s.selectedBodyKeys
    status := SubStatus.pending
    notes := match s.revisingSubmissionInfo with
      | some r => r.notes
      | none => [] }

/-- One step of the analyzer session for user `u` with role `role`, against
the shared store.  Each constructor is one handler of
`AccreditationAnalyzer` (with the availability guards the component puts on
the corresponding control), or an action of the environment on the shared
submissions collection (a reviewer decision from the review modal, or a
submission appended by a different user). -/
inductive Step (u : String) (role : UserRole) : SessionState → SessionState → Prop where
  /-- Handler `handleSubmitAnalysis`, some bodies succeeded: guards passed, the
  fulfilled groups are displayed. -/
  | analyzeOk (s : SessionState) (groups : List AnalysisResultsGroup) :
      analysisGateError role s = none →
      Step u role s { s with analysisResults := some groups }
  /-- Handler `handleSubmitAnalysis`, every body failed: results stay cleared. -/
  | analyzeFail (s : SessionState) :
      analysisGateError role s = none →
      Step u role s { s with analysisResults := none }
  /-- Handler `handleSubmitForReview`: requires displayed results and non-empty
  content, appends a fresh pending submission, clears the draft, sets the
  pending flag and leaves revision mode. -/
  | submitForReview (s : SessionState) (rs : List AnalysisResultsGroup)
      (newId ts lang : String) :
      s.analysisResults = some rs →
      s.programContent ≠ "" →
      Step u role s
        { submissions := s.submissions ++ [newSubmission u role newId ts lang s rs]
          analysisResults := none
          programContent := ""
          selectedBodyKeys := []
          revisingSubmissionInfo := none
          hasPendingSubmission := true }
  /-- Handler `handleLoadForRevision` via the past-submissions list, which is shown
  only for own decided submissions, outside revision mode, and (for the
  University ID role) only without a pending submission. -/
  | loadForRevision (s : SessionState) (sub : Submission) :
      sub ∈ s.submissions →
      sub.submittedByUsername = u →
      (sub.status = SubStatus.approved ∨ sub.status = SubStatus.rejected) →
      s.revisingSubmissionInfo = none →
      (role = UserRole.UniversityID → s.hasPendingSubmission = false) →
      Step u role s
        { s with
          programContent := sub.programContent
          selectedBodyKeys := sub.selectedBodyKeys
          analysisResults := none
          hasPendingSubmission := false
          revisingSubmissionInfo := some ⟨sub.id, sub.status, sub.notes⟩ }
  /-- The "Cancel Revision & Start New" button. -/
  | cancelRevision (s : SessionState) :
      s.revisingSubmissionInfo ≠ none →
      Step u role s
        { s with
          revisingSubmissionInfo := none
          programContent := ""
          analysisResults := none
          selectedBodyKeys := [] }
  /-- Typing in the content textarea. -/
  | editContent (s : SessionState) (c : String) :
      Step u role s { s with programContent := c }
  /-- Toggling accreditation-body checkboxes. -/
  | selectBodies (s : SessionState) (keys : List String) :
      Step u role s { s with selectedBodyKeys := keys }
  /-- Handler `handleFileChange`: replaces the content and clears results. -/
  | fileLoaded (s : SessionState) (c : String) :
      Step u role s { s with programContent := c, analysisResults := none }
  /-- A reviewer decides a pending submission (review modal acting on the
  shared store): its status becomes `approved` or `rejected`. -/
  | reviewDecision (s : SessionState) (subId : String) (d : SubStatus) :
      (d = SubStatus.approved ∨ d = SubStatus.rejected) →
      Step u role s
        { s with submissions := s.submissions.map (fun sub =>
            if sub.id = subId ∧ sub.status = SubStatus.pending then
              { sub with status := d }
            else sub) }
  /-- Another user appends a submission to the shared store. -/
  | externalSubmit (s : SessionState) (sub : Submission) :
      sub.submittedByUsername ≠ u →
      Step u role s { s with submissions := s.submissions ++ [sub] }
  /-- The `loadSubmissionsData` effect recomputes `hasPendingSubmission`
  from the store. -/
  | syncPendingFlag (s : SessionState) :
      Step u role s
        { s with hasPendingSubmission := decide (0 < countPendingBy u s.submissions) }

/-- The coupling invariant of the analyzer session for a University ID
user: at most one pending submission, and the pending flag, revision mode
and displayed results each rule out an existing pending submission. -/
def Inv (u : String) (s : SessionState) : Prop :=
  countPendingBy u s.submissions ≤ 1 ∧
  (s.hasPendingSubmission = false → countPendingBy u s.submissions = 0) ∧
  (s.revisingSubmissionInfo ≠ none → countPendingBy u s.submissions = 0) ∧
  (s.analysisResults ≠ none → countPendingBy u s.submissions = 0)

/-! ### Submission notes (`SubmissionReviewModal`, `handleAddNote`) -/

/-- Which alert, if any, `handleAddNote` raises. -/
inductive AddNoteOutcome where
  /-- Alert "Note text cannot be empty.": early return, nothing changes. -/
  | emptyTextAlert
  /-- The note was appended to the session list and persisted; input cleared. -/
  | persisted
  /-- No stored submission matched the id: the session list still gained the
  note, the store is unchanged, and an error alert is shown. -/
  | missingIdAlert
deriving DecidableEq, Repr

/-- The component state of `SubmissionReviewModal` that `handleAddNote`
touches, together with the shared submissions store:
`currentSubmissionNotes` is initialized from the `submission` prop's notes,
`newNoteText` is the note textarea. -/
structure NoteSessionState where
  submissions : List Submission
  currentSubmissionNotes : List SubmissionNote
  newNoteText : String
deriving DecidableEq, Repr

/-- The store mutation `submissions[submissionIndex].notes = updatedNotes`
after `findIndex`: replace the notes of the first submission whose id
matches, leave everything else alone. -/
def setNotesFirst (subId : String) (notes : List SubmissionNote) :
    List Submission → List Submission
  | [] => []
  | s :: rest =>
      if s.id = subId then { s with notes := notes } :: rest
      else s :: setNotesFirst subId notes rest

/-- Handler `handleAddNote` of `SubmissionReviewModal` (the review modal is
concatenated after the messages modal in its source file).  Note that it
checks only the text: the submission's status is never consulted — the
pending-only freeze lives in the component's rendering, `addNoteFormVisible`
below.  The persisted note text is the trimmed input; the session note list
is updated before the store lookup, so it gains the note even when no
stored submission matches the id. -/
def handleAddNote (submissionId : String) (currentUser : User) (ts : String)
    (st : NoteSessionState) : AddNoteOutcome × NoteSessionState :=
  if jsTrim st.newNoteText = "" then (.emptyTextAlert, st)
  else
    let newNote : SubmissionNote :=
      ⟨currentUser.username, currentUser.role, ts, jsTrim st.newNoteText⟩
    let updatedNotes := st.currentSubmissionNotes ++ [newNote]
    if st.submissions.any (fun s => s.id == submissionId) then
      (.persisted,
       { submissions := setNotesFirst submissionId updatedNotes st.submissions
         currentSubmissionNotes := updatedNotes
         newNoteText := "" })
    else
      (.missingIdAlert, { st with currentSubmissionNotes := updatedNotes })

/-- The rendering condition of the add-note form (`submission.status ===
"pending"` on the prop snapshot): the only freeze of notes on decided
submissions. -/
def addNoteFormVisible (submission : Submission) : Bool :=
  decide (submission.status = SubStatus.pending)

/-! ## Concrete sample values used in counterexamples and witnesses -/

/-- An AI-returned item whose id matches no ADA catalog standard. -/
def xyzItem : RawResultItem :=
  { standardId := some "XYZ-9", standardName := none, matchPercentage := .jnum 50,
    improvementFeedback := none, reasoning := none }

/-- An AI-returned item carrying the id `"ada11"` from the spec scenario. -/
def ada11Item : RawResultItem :=
  { standardId := some "ada11", standardName := none, matchPercentage := .jnum 60,
    improvementFeedback := none, reasoning := none }

/-- An AI-returned item carrying the id `"ada1.1"`, which does normalize to
the catalog id `"ADA-1.1"`. -/
def adaDotItem : RawResultItem :=
  { standardId := some "ada1.1", standardName := none, matchPercentage := .jnum 60,
    improvementFeedback := none, reasoning := none }

/-- An AI-returned item whose matchPercentage is the string `"high"` and
whose reasoning is absent. -/
def highItem : RawResultItem :=
  { standardId := some "ADA-1.1", standardName := none, matchPercentage := .jstr "high",
    improvementFeedback := none, reasoning := none }

/-- An AI-returned item with the given matchPercentage value. -/
def pctItem (v : JVal) : RawResultItem :=
  { standardId := some "ADA-1.1", standardName := none, matchPercentage := v,
    improvementFeedback := some "fb", reasoning := some "r" }

/-- A registry with a single stored user, not named admin or lead. -/
def bobUser : StoredUser := ⟨"bob", UserRole.UniversityID, some "bobpass"⟩

/-! ## C1: reconciled ids, the sentinel and the filter -/

/-- C1 counterexample: the claim says an AI-returned id that cannot be
verified against the catalog resolves to `"N/A"` and is filtered out, so no
result group contains a dangling standardId.  On the code, the unmatched
non-empty id `"XYZ-9"` is retained verbatim in the reconciled item list even
though it is not a catalog id for the ADA body. -/
theorem c1_dangling_id_retained :
    processBody adaBody (AiResponse.parsed (some [xyzItem])) =
      .ok { accreditationBodyKey := "ADA"
            accreditationBodyName := "American Dental Association (ADA CODA)"
            items := [{ standardId := "XYZ-9", standardName := "Unknown Standard",
                        matchPercentage := 50,
                        improvementFeedback := "No feedback provided.",
                        reasoning := some "Reasoning not explicitly provided by AI." }] } ∧
    ¬ ("XYZ-9" ∈ adaBody.standards.map Standard.id) := by
  exact ⟨rfl, by decide⟩

/-- C1 amended: after reconciliation no item in a body's result group has
standardId `"N/A"`; each surviving item either carries the id and name of a
catalog standard of that body, or retains verbatim the (non-empty) id the
AI returned for it.  Items whose returned id is absent or empty and
unmatched resolve to `"N/A"` and are filtered out; unverifiable non-empty
ids are kept (only flagged with a console warning). -/
theorem reconciled_ids_no_sentinel (body : AccreditationBody)
    (raw : List RawResultItem) (g : AnalysisResultsGroup)
    (h : processBody body (AiResponse.parsed (some raw)) = .ok g) :
    ∀ it ∈ g.items, it.standardId ≠ "N/A" ∧
      ((∃ std ∈ body.standards, it.standardId = std.id ∧ it.standardName = std.name) ∨
       (∃ r ∈ raw, r.standardId = some it.standardId)) := by
  have hg : g.items =
      (raw.map (reconcileItem body)).filter (fun it => it.standardId != "N/A") := by
    simp only [processBody, Except.ok.injEq] at h
    rw [← h]
  intro it hit
  rw [hg] at hit
  obtain ⟨hmem, hkeep⟩ := List.mem_filter.mp hit
  have hne : it.standardId ≠ "N/A" := by simpa using hkeep
  refine ⟨hne, ?_⟩
  obtain ⟨r, hr, hrec⟩ := List.mem_map.mp hmem
  rcases hfind : body.standards.find?
      (fun s => normalizeId s.id == normalizeId (r.standardId.getD "")) with _ | std
  · right
    refine ⟨r, hr, ?_⟩
    have hid : it.standardId = jsOr r.standardId "N/A" := by
      rw [← hrec]; simp [reconcileItem, hfind]
    rcases hopt : r.standardId with _ | s
    · exfalso; apply hne; rw [hid, hopt]; rfl
    · rw [hid, hopt]
      by_cases hs : s = ""
      · exfalso; apply hne; rw [hid, hopt]; simp [jsOr, hs]
      · simp [jsOr, hs]
  · left
    refine ⟨std, List.mem_of_find?_eq_some hfind, ?_, ?_⟩ <;>
      · rw [← hrec]; simp [reconcileItem, hfind]

/-- C1 witness: the amended theorem applied to the concrete `"XYZ-9"` run. -/
theorem reconciled_ids_no_sentinel_witness :
    ({ standardId := "XYZ-9", standardName := "Unknown Standard", matchPercentage := 50,
       improvementFeedback := "No feedback provided.",
       reasoning := some "Reasoning not explicitly provided by AI." } :
        AnalysisResultItem).standardId ≠ "N/A" ∧
    ((∃ std ∈ adaBody.standards,
        ({ standardId := "XYZ-9", standardName := "Unknown Standard", matchPercentage := 50,
           improvementFeedback := "No feedback provided.",
           reasoning := some "Reasoning not explicitly provided by AI." } :
            AnalysisResultItem).standardId = std.id ∧
        ({ standardId := "XYZ-9", standardName := "Unknown Standard", matchPercentage := 50,
           improvementFeedback := "No feedback provided.",
           reasoning := some "Reasoning not explicitly provided by AI." } :
            AnalysisResultItem).standardName = std.name) ∨
     (∃ r ∈ [xyzItem], r.standardId = some
        ({ standardId := "XYZ-9", standardName := "Unknown Standard", matchPercentage := 50,
           improvementFeedback := "No feedback provided.",
           reasoning := some "Reasoning not explicitly provided by AI." } :
            AnalysisResultItem).standardId)) :=
  reconciled_ids_no_sentinel adaBody [xyzItem]
    { accreditationBodyKey := "ADA"
      accreditationBodyName := "American Dental Association (ADA CODA)"
      items := [{ standardId := "XYZ-9", standardName := "Unknown Standard",
                  matchPercentage := 50,
                  improvementFeedback := "No feedback provided.",
                  reasoning := some "Reasoning not explicitly provided by AI." }] }
    rfl _ (by decide)

/-! ## C3: normalized-id matching -/

/-- Normalized catalog ids are pairwise distinct within each shipped body. -/
theorem normIds_nodup (body : AccreditationBody) (h : body ∈ ACCREDITATION_BODIES) :
    (body.standards.map (fun s => normalizeId s.id)).Nodup := by
  simp only [ACCREDITATION_BODIES, List.mem_cons, List.mem_singleton,
    List.not_mem_nil, or_false] at h
  rcases h with h | h | h <;> subst h <;> decide

/-- C3 counterexample: the claim asserts in particular that a returned
standardId `"ada11"` reconciles to the catalog id `"ADA-1.1"`.  On the code,
normalization removes case, whitespace and hyphens but not dots, so
`"ada11"` and `"ADA-1.1"` normalize to `"ada11"` and `"ada1.1"` and do not
match: the reconciled item keeps the raw id `"ada11"`. -/
theorem c3_ada11_does_not_match :
    (reconcileItem adaBody ada11Item).standardId = "ada11" ∧
    normalizeId "ADA-1.1" = "ada1.1" ∧
    ("ada11" : String) ≠ "ADA-1.1" := by
  exact ⟨by decide, by decide, by decide⟩

/-- C3 amended: for every AI-returned item whose standardId, normalized by
lower-casing and removing whitespace and hyphens, equals the normalization
of some catalog standard id of the selected (shipped) body, the reconciled
item carries exactly that catalog id and name.  The spec's `"ada11"`
example does not match `"ADA-1.1"` (normalization keeps dots); the returned
id `"ada1.1"` does reconcile to `"ADA-1.1"`. -/
theorem reconcile_normalized_match (body : AccreditationBody)
    (hbody : body ∈ ACCREDITATION_BODIES) (item : RawResultItem) (std : Standard)
    (hstd : std ∈ body.standards)
    (hnorm : normalizeId std.id = normalizeId (item.standardId.getD "")) :
    (reconcileItem body item).standardId = std.id ∧
    (reconcileItem body item).standardName = std.name ∧
    (reconcileItem adaBody adaDotItem).standardId = "ADA-1.1" := by
  have hnd := normIds_nodup body hbody
  have hsome : (body.standards.find?
      (fun s => normalizeId s.id == normalizeId (item.standardId.getD ""))).isSome := by
    rw [List.find?_isSome]
    exact ⟨std, hstd, by simp [hnorm]⟩
  obtain ⟨std', hfind⟩ := Option.isSome_iff_exists.mp hsome
  have hmem' := List.mem_of_find?_eq_some hfind
  have hp' : normalizeId std'.id = normalizeId (item.standardId.getD "") := by
    simpa using List.find?_some hfind
  have heq : std' = std := List.inj_on_of_nodup_map hnd hmem' hstd (by rw [hp', hnorm])
  subst heq
  refine ⟨?_, ?_, by decide⟩ <;> simp [reconcileItem, hfind]

/-- C3 witness: the amended theorem applied to the returned id `"ada1.1"`
against the ADA catalog. -/
theorem reconcile_normalized_match_witness :
    (reconcileItem adaBody adaDotItem).standardId = "ADA-1.1" ∧
    (reconcileItem adaBody adaDotItem).standardName =
      "Curriculum Management & Evaluation" :=
  ⟨(reconcile_normalized_match adaBody (by simp [ACCREDITATION_BODIES]) adaDotItem
      { id := "ADA-1.1", name := "Curriculum Management & Evaluation",
        description := "Programs must demonstrate effective curriculum planning, review, and evaluation processes to ensure content is current, comprehensive, and well-organized." }
      (by decide) (by decide)).1,
   (reconcile_normalized_match adaBody (by simp [ACCREDITATION_BODIES]) adaDotItem
      { id := "ADA-1.1", name := "Curriculum Management & Evaluation",
        description := "Programs must demonstrate effective curriculum planning, review, and evaluation processes to ensure content is current, comprehensive, and well-organized." }
      (by decide) (by decide)).2.1⟩

/-! ## C4: percentage clamping -/

/-- C4: the reconciled matchPercentage is 0 when the returned value is not
a number, and otherwise is the returned integer clamped to the interval
0..100; in particular 150 is stored as 100, -5 as 0 and the string "high"
as 0. -/
theorem matchPercentage_clamped (body : AccreditationBody) (item : RawResultItem) :
    (item.matchPercentage.isNumber = false →
      (reconcileItem body item).matchPercentage = 0) ∧
    (∀ x : Int, item.matchPercentage = JVal.jnum x →
      0 ≤ (reconcileItem body item).matchPercentage ∧
      (reconcileItem body item).matchPercentage ≤ 100 ∧
      (0 ≤ x → x ≤ 100 → (reconcileItem body item).matchPercentage = x) ∧
      (100 < x → (reconcileItem body item).matchPercentage = 100) ∧
      (x < 0 → (reconcileItem body item).matchPercentage = 0)) ∧
    (reconcileItem adaBody (pctItem (JVal.jnum 150))).matchPercentage = 100 ∧
    (reconcileItem adaBody (pctItem (JVal.jnum (-5)))).matchPercentage = 0 ∧
    (reconcileItem adaBody (pctItem (JVal.jstr "high"))).matchPercentage = 0 := by
  have hm : (reconcileItem body item).matchPercentage = clampPct item.matchPercentage := rfl
  refine ⟨?_, ?_, by decide, by decide, by decide⟩
  · intro hnum
    rw [hm]
    cases hv : item.matchPercentage with
    | jnum n => rw [hv] at hnum; simp [JVal.isNumber] at hnum
    | jstr s => rfl
    | jnull => rfl
  · intro x hx
    rw [hm, hx]
    simp only [clampPct]
    refine ⟨le_max_left 0 _, ?_, ?_, ?_, ?_⟩ <;>
      simp only [Int.max_def, Int.min_def] <;> split_ifs <;> omega

/-- C4 witness: the clamping theorem applied at the in-range value 42. -/
theorem matchPercentage_clamped_witness :
    (reconcileItem adaBody (pctItem (JVal.jnum 42))).matchPercentage = 42 :=
  ((matchPercentage_clamped adaBody (pctItem (JVal.jnum 42))).2.1 42 rfl).2.2.1
    (by decide) (by decide)

/-! ## C6: reasoning backfill -/

/-- C6 counterexample: the claim says every reconciled item whose
matchPercentage is below 75 has a reasoning present.  On the code, an item
whose returned matchPercentage is the non-numeric string `"high"` is stored
with matchPercentage 0 (below 75) yet its reasoning stays absent, because
the placeholder is only synthesized when the returned value is a number
below 75. -/
theorem c6_reasoning_absent_for_nonnumeric :
    (reconcileItem adaBody highItem).matchPercentage = 0 ∧
    (reconcileItem adaBody highItem).matchPercentage < 75 ∧
    (reconcileItem adaBody highItem).reasoning = none := by
  exact ⟨by decide, by decide, by decide⟩

/-- C6 amended: for every reconciled item whose returned matchPercentage is
numeric and whose reconciled matchPercentage is below 75, the reasoning
field is present, and when the AI omitted reasoning it is the neutral
placeholder string.  When the returned matchPercentage is not numeric
(stored as 0) the reasoning may remain absent. -/
theorem reasoning_backfilled (body : AccreditationBody) (item : RawResultItem)
    (x : Int) (hnum : item.matchPercentage = JVal.jnum x)
    (hlt : (reconcileItem body item).matchPercentage < 75) :
    (reconcileItem body item).reasoning ≠ none ∧
    (item.reasoning = none →
      (reconcileItem body item).reasoning =
        some "Reasoning not explicitly provided by AI.") := by
  have hm : (reconcileItem body item).matchPercentage = clampPct item.matchPercentage := rfl
  have hx : x < 75 := by
    rw [hm, hnum] at hlt
    simp only [clampPct, Int.max_def, Int.min_def] at hlt
    split_ifs at hlt <;> omega
  have hr : (reconcileItem body item).reasoning =
      (match item.reasoning with
       | some r => if r = "" then reasoningFallback item.matchPercentage else some r
       | none => reasoningFallback item.matchPercentage) := rfl
  have hfb : reasoningFallback item.matchPercentage =
      some "Reasoning not explicitly provided by AI." := by
    rw [hnum]; simp [reasoningFallback, hx]
  constructor
  · rw [hr]
    cases hro : item.reasoning with
    | none => simp [hfb]
    | some r =>
        by_cases hre : r = "" <;> simp [hre, hfb]
  · intro hro
    rw [hr, hro, hfb]

/-- C6 witness: the amended theorem applied to a numeric 10-percent item
with omitted reasoning. -/
theorem reasoning_backfilled_witness :
    (reconcileItem adaBody
      { standardId := some "ADA-1.1", standardName := none,
        matchPercentage := .jnum 10, improvementFeedback := none,
        reasoning := none }).reasoning =
      some "Reasoning not explicitly provided by AI." :=
  (reasoning_backfilled adaBody
    { standardId := some "ADA-1.1", standardName := none,
      matchPercentage := .jnum 10, improvementFeedback := none,
      reasoning := none } 10 rfl (by decide)).2 rfl

/-! ## C8: login fallback -/

/-- C8 counterexample: the claim says the hardcoded seed credentials apply
only when the user registry is empty, and every other absent-username login
fails.  On the code, a non-empty registry that merely lacks the username
still falls back: with only the user bob stored, logging in as admin with
the seed password succeeds. -/
theorem c8_fallback_despite_nonempty_registry :
    ([bobUser] : List StoredUser) ≠ [] ∧
    login [bobUser] "admin" "adminpass" = .ok ⟨"admin", UserRole.Admin⟩ := by
  exact ⟨by decide, rfl⟩

/-- C8 amended: login looks the username up case-insensitively and compares
the password by plain equality; the hardcoded seed credentials
(admin/adminpass as Admin, lead/leadpass as University Lead) apply whenever
the username is absent from the registry — regardless of whether the
registry is empty — and every other case fails with the authentication
error. -/
theorem login_spec (users : List StoredUser) (username password : String) :
    (users.find? (fun u => toLowerStr u.username == toLowerStr username) = none →
      login users username password =
        (if toLowerStr username = "admin" ∧ password = "adminpass" then
          .ok ⟨"admin", UserRole.Admin⟩
        else if toLowerStr username = "lead" ∧ password = "leadpass" then
          .ok ⟨"lead", UserRole.UniversityLead⟩
        else .error "Invalid username or password.")) ∧
    (∀ u, users.find? (fun u => toLowerStr u.username == toLowerStr username) = some u →
      login users username password =
        (if u.password = some password then .ok ⟨u.username, u.role⟩
         else .error "Invalid username or password.")) ∧
    login [] "admin" "adminpass" = .ok ⟨"admin", UserRole.Admin⟩ ∧
    login [] "admin" "wrong" = .error "Invalid username or password." := by
  refine ⟨?_, ?_, rfl, rfl⟩
  · intro hnone
    unfold login
    rw [hnone]
  · intro u hsome
    unfold login
    rw [hsome]

/-- C8 witness: the amended theorem applied to the one-user registry that
lacks the username lead. -/
theorem login_spec_witness :
    login [bobUser] "Lead" "leadpass" = .ok ⟨"lead", UserRole.UniversityLead⟩ := by
  have h := (login_spec [bobUser] "Lead" "leadpass").1 rfl
  rw [h]
  rfl

/-! ## C9: markMessageAsRead idempotence -/

/-- Inserting a username is absorbed by a second insertion. -/
theorem jsReadByInsert_mem (r : List String) (u : String) : u ∈ jsReadByInsert r u := by
  unfold jsReadByInsert
  by_cases h : u ∈ r <;> simp [h]

/-- Re-inserting the same reader changes nothing. -/
theorem jsReadByInsert_idem (r : List String) (u : String) :
    jsReadByInsert (jsReadByInsert r u) u = jsReadByInsert r u := by
  rw [show jsReadByInsert (jsReadByInsert r u) u =
      (if u ∈ jsReadByInsert r u then jsReadByInsert r u
       else jsReadByInsert r u ++ [u]) from rfl,
    if_pos (jsReadByInsert_mem r u)]

/-- C9: `markMessageAsRead` is idempotent — marking the same message read
twice by the same user yields exactly the same message list (hence the same
readBy set on the targeted message) as marking it once. -/
theorem markMessageAsRead_idempotent (msgs : List InternalMessage)
    (messageId username : String) :
    markMessageAsRead (markMessageAsRead msgs messageId username) messageId username =
      markMessageAsRead msgs messageId username := by
  unfold markMessageAsRead
  rw [List.map_map]
  apply List.map_congr_left
  intro m _
  simp only [Function.comp]
  by_cases h : m.id = messageId
  · simp [h, jsReadByInsert_idem]
  · simp [h]

/-! ## C5: all-settled aggregation -/

/-- The error-banner walk only depends on the rejection messages. -/
theorem accumErrors_eq_foldl (outcomes : List (Except String AnalysisResultsGroup)) :
    ∀ acc, accumErrors acc outcomes = (failuresOf outcomes).foldl accumulateError acc := by
  induction outcomes with
  | nil => intro acc; rfl
  | cons o rest ih =>
      intro acc
      cases o with
      | ok g => simp [accumErrors, failuresOf, List.filterMap_cons, ih]
      | error m => simp [accumErrors, failuresOf, List.filterMap_cons, List.foldl_cons, ih]

/-- Folding warnings onto an existing banner appends the newline-separated
warning text. -/
theorem foldl_accumulateError_some (msgs : List String) :
    ∀ s, msgs.foldl accumulateError (some s) = some (s ++ suffixWarnings msgs) := by
  induction msgs with
  | nil => intro s; simp [suffixWarnings, String.append_empty]
  | cons m ms ih =>
      intro s
      simp only [List.foldl_cons, accumulateError, suffixWarnings]
      rw [ih]
      congr 1
      simp [String.append_assoc]

/-- Starting from an empty banner, the walk produces exactly the
enumeration of per-failure warnings. -/
theorem foldl_accumulateError_none (msgs : List String) :
    msgs.foldl accumulateError none = warningsText msgs := by
  cases msgs with
  | nil => rfl
  | cons m ms =>
      simp only [List.foldl_cons, accumulateError, warningsText]
      exact foldl_accumulateError_some ms (perBodyWarning m)

/-- C5 amended: the aggregation uses all-settled semantics.  Whenever at
least one body's call succeeds, the displayed results are exactly the
successful groups in order (no failure discards them), and if some body
also failed the banner enumerates one warning per failure carrying that
failure's message (which names the failed body when the failure comes from
the orchestrator's own response validation, though not necessarily for an
externally thrown error); when every body fails the results stay empty and
a single aggregate failure message is shown.  In the concrete two-body
scenario where the ADA call succeeds and the GDC response has no results
array, the result is the ADA group alone plus a warning whose text names
the GDC body. -/
theorem allSettled_aggregation (outcomes : List (Except String AnalysisResultsGroup)) :
    (successesOf outcomes ≠ [] →
      (aggregateSettled outcomes).1 = some (successesOf outcomes)) ∧
    (successesOf outcomes ≠ [] → failuresOf outcomes ≠ [] →
      (aggregateSettled outcomes).2 = warningsText (failuresOf outcomes)) ∧
    (successesOf outcomes = [] → failuresOf outcomes ≠ [] →
      (aggregateSettled outcomes).1 = none ∧
      (aggregateSettled outcomes).2 = some allFailedMsg) ∧
    aggregateSettled
        [processBody adaBody (AiResponse.parsed (some [
            { standardId := some "ADA-1.1", standardName := none,
              matchPercentage := .jnum 80, improvementFeedback := some "Looks good.",
              reasoning := some "Covers the review cycle." }])),
         processBody gdcBody (AiResponse.parsed none)] =
      (some [{ accreditationBodyKey := "ADA"
               accreditationBodyName := "American Dental Association (ADA CODA)"
               items := [{ standardId := "ADA-1.1",
                           standardName := "Curriculum Management & Evaluation",
                           matchPercentage := 80,
                           improvementFeedback := "Looks good.",
                           reasoning := some "Covers the review cycle." }] }],
       some ("Analysis failed for one or more accreditation bodies: " ++
         ("Invalid JSON structure in API response for General Dental Council (GDC)" ++
          ". Expected results array."))) := by
    refine ⟨?_, ?_, ?_, ?_⟩
    · intro hs
      have he : (successesOf outcomes).isEmpty = false := by
        simpa [List.isEmpty_iff] using hs
      simp [aggregateSettled, he]
    · intro hs hf
      have he : (successesOf outcomes).isEmpty = false := by
        simpa [List.isEmpty_iff] using hs
      simp only [aggregateSettled, he, Bool.false_and, if_neg Bool.false_ne_true]
      rw [accumErrors_eq_foldl, foldl_accumulateError_none]
    · intro hs hf
      have he : (successesOf outcomes).isEmpty = true := by
        simpa [List.isEmpty_iff] using hs
      have hfe : (failuresOf outcomes).isEmpty = false := by
        simpa [List.isEmpty_iff] using hf
      simp [aggregateSettled, he, hfe]
    · rfl

/-- C5 counterexample: the claim says the surfaced warning names each
failed body.  When a body's AI call throws an external error, the banner
carries only the thrown message: with the ADA body succeeding and the GDC
body throwing a network error, the banner is exactly the prefixed thrown
message, and the very same failure outcome (hence the very same banner)
arises when the NCAAA body is the one that throws — so the warning does
not name the failed body. -/
theorem c5_warning_need_not_name_body :
    aggregateSettled
        [Except.ok { accreditationBodyKey := "ADA"
                     accreditationBodyName := "American Dental Association (ADA CODA)"
                     items := [] },
         processBody gdcBody (AiResponse.threw "network unavailable")] =
      (some [{ accreditationBodyKey := "ADA"
               accreditationBodyName := "American Dental Association (ADA CODA)"
               items := [] }],
       some "Analysis failed for one or more accreditation bodies: network unavailable") ∧
    processBody gdcBody (AiResponse.threw "network unavailable") =
      processBody ncaaaBody (AiResponse.threw "network unavailable") := by
  exact ⟨rfl, rfl⟩

/-- An empty ADA result group used in the C5 witness run. -/
def adaEmptyGroup : AnalysisResultsGroup :=
  { accreditationBodyKey := "ADA"
    accreditationBodyName := "American Dental Association (ADA CODA)"
    items := [] }

/-- A settled run with one fulfilled body and one rejected body. -/
def mixedOutcomes : List (Except String AnalysisResultsGroup) :=
  [Except.ok adaEmptyGroup, Except.error "network unavailable"]

/-- C5 witness: the aggregation theorem applied to a run with one success
and one failure. -/
theorem allSettled_aggregation_witness :
    (aggregateSettled mixedOutcomes).1 = some [adaEmptyGroup] ∧
    (aggregateSettled mixedOutcomes).2 = warningsText ["network unavailable"] :=
  ⟨(allSettled_aggregation mixedOutcomes).1 (by simp [successesOf, mixedOutcomes]),
   (allSettled_aggregation mixedOutcomes).2.1 (by simp [successesOf, mixedOutcomes])
     (by simp [failuresOf, mixedOutcomes])⟩

/-! ## C2: at most one pending submission per University ID user -/

/-- Appending submissions adds the pending counts. -/
theorem countPendingBy_append (u : String) (l1 l2 : List Submission) :
    countPendingBy u (l1 ++ l2) = countPendingBy u l1 + countPendingBy u l2 := by
  simp [countPendingBy, List.countP_append]

/-- A freshly created submission counts as one pending submission of its
submitter. -/
theorem countPendingBy_newSubmission (u : String) (role : UserRole)
    (newId ts lang : String) (s : SessionState) (rs : List AnalysisResultsGroup) :
    countPendingBy u [newSubmission u role newId ts lang s rs] = 1 := by
  simp [countPendingBy, List.countP_cons, newSubmission]

/-- A submission by a different user contributes nothing to the count. -/
theorem countPendingBy_other (u : String) (sub : Submission)
    (h : sub.submittedByUsername ≠ u) : countPendingBy u [sub] = 0 := by
  simp [countPendingBy, List.countP_cons, h]

/-- A reviewer decision never increases anyone's pending count. -/
theorem countPendingBy_review_le (u subId : String) (d : SubStatus)
    (hd : d = SubStatus.approved ∨ d = SubStatus.rejected) (subs : List Submission) :
    countPendingBy u (subs.map (fun sub =>
        if sub.id = subId ∧ sub.status = SubStatus.pending then
          { sub with status := d }
        else sub)) ≤ countPendingBy u subs := by
  simp only [countPendingBy, List.countP_map]
  apply List.countP_mono_left
  intro sub _ hp
  by_cases hc : sub.id = subId ∧ sub.status = SubStatus.pending
  · exfalso
    simp only [Function.comp, if_pos hc, decide_eq_true_eq] at hp
    rcases hd with hd | hd <;> rw [hd] at hp <;> exact absurd hp.2 (by simp)
  · simpa only [Function.comp, if_neg hc] using hp

/-- Preservation: every session step of a University ID user keeps the
coupling invariant. -/
theorem inv_step {u : String} {s s' : SessionState} (hInv : Inv u s)
    (hstep : Step u UserRole.UniversityID s s') : Inv u s' := by
  obtain ⟨hle, hflag, hrev, hres⟩ := hInv
  cases hstep with
  | analyzeOk groups hgate =>
      refine ⟨hle, hflag, hrev, ?_⟩
      intro _
      unfold analysisGateError at hgate
      split_ifs at hgate with h1 h2 h3
      push_neg at h3
      by_cases hf : s.hasPendingSubmission = true
      · exact hrev (h3 hf rfl)
      · exact hflag (by simpa using hf)
  | analyzeFail hgate =>
      exact ⟨hle, hflag, hrev, fun h => absurd rfl h⟩
  | submitForReview rs newId ts lang hresults hcontent =>
      have hc0 : countPendingBy u s.submissions = 0 := hres (by rw [hresults]; simp)
      refine ⟨?_, ?_, ?_, ?_⟩
      · show countPendingBy u (s.submissions ++ [newSubmission u UserRole.UniversityID newId ts lang s rs]) ≤ 1
        rw [countPendingBy_append, hc0, countPendingBy_newSubmission]
      · intro h; simp at h
      · intro h; exact absurd rfl h
      · intro h; exact absurd rfl h
  | loadForRevision sub hmem hown hst hrev0 hflagimp =>
      have hc0 : countPendingBy u s.submissions = 0 := hflag (hflagimp rfl)
      exact ⟨by rw [hc0]; omega, fun _ => hc0, fun _ => hc0, fun _ => hc0⟩
  | cancelRevision hrv =>
      exact ⟨hle, hflag, fun h => absurd rfl h, fun h => absurd rfl h⟩
  | editContent c =>
      exact ⟨hle, hflag, hrev, hres⟩
  | selectBodies keys =>
      exact ⟨hle, hflag, hrev, hres⟩
  | fileLoaded c =>
      exact ⟨hle, hflag, hrev, fun h => absurd rfl h⟩
  | reviewDecision subId d hd =>
      have hmono := countPendingBy_review_le u subId d hd s.submissions
      exact ⟨le_trans hmono hle,
        fun h => Nat.le_zero.mp (le_trans hmono (Nat.le_of_eq (hflag h))),
        fun h => Nat.le_zero.mp (le_trans hmono (Nat.le_of_eq (hrev h))),
        fun h => Nat.le_zero.mp (le_trans hmono (Nat.le_of_eq (hres h)))⟩
  | externalSubmit sub hne =>
      have hz := countPendingBy_other u sub hne
      have happ := countPendingBy_append u s.submissions [sub]
      refine ⟨?_, ?_, ?_, ?_⟩
      · show countPendingBy u (s.submissions ++ [sub]) ≤ 1
        rw [happ, hz]; simpa using hle
      · intro h
        show countPendingBy u (s.submissions ++ [sub]) = 0
        rw [happ, hz, hflag h]
      · intro h
        show countPendingBy u (s.submissions ++ [sub]) = 0
        rw [happ, hz, hrev h]
      · intro h
        show countPendingBy u (s.submissions ++ [sub]) = 0
        rw [happ, hz, hres h]
  | syncPendingFlag =>
      refine ⟨hle, ?_, hrev, hres⟩
      intro h
      simp only [decide_eq_false_iff_not, not_lt, Nat.le_zero] at h
      exact h

/-- C2: along any run of the analyzer session of a University ID user that
starts in a state satisfying the coupling invariant, the user never has
more than one pending submission in the store; whenever a pending
submission exists no analysis results are displayed, so
`handleSubmitForReview` cannot create another submission, and while the
pending flag is set outside revision mode `handleSubmitAnalysis` refuses to
start a new analysis with the pending-review validation error. -/
theorem single_pending_submission (u : String) (s s' : SessionState) (hInv : Inv u s)
    (hsteps : Relation.ReflTransGen (Step u UserRole.UniversityID) s s') :
    countPendingBy u s'.submissions ≤ 1 ∧
    (0 < countPendingBy u s'.submissions → s'.analysisResults = none) ∧
    (s'.hasPendingSubmission = true → s'.revisingSubmissionInfo = none →
      jsTrim s'.programContent ≠ "" → s'.selectedBodyKeys ≠ [] →
      analysisGateError UserRole.UniversityID s' =
        some "You have a submission pending review. Cannot start a new analysis.") := by
  have hInv' : Inv u s' := by
    induction hsteps with
    | refl => exact hInv
    | tail hab hbc ih => exact inv_step ih hbc
  obtain ⟨h1, h2, h3, h4⟩ := hInv'
  refine ⟨h1, ?_, ?_⟩
  · intro hpos
    cases hcase : s'.analysisResults with
    | none => rfl
    | some rs =>
        have := h4 (by rw [hcase]; simp)
        omega
  · intro hf hrv hcont hkeys
    unfold analysisGateError
    rw [if_neg hcont, if_neg hkeys, if_pos ⟨hf, rfl, hrv⟩]

/-- Initial session state for the C2 witness: empty store, analysis
results already displayed for a non-empty draft. -/
def c2s0 : SessionState :=
  { submissions := []
    analysisResults := some [adaEmptyGroup]
    programContent := "program text"
    selectedBodyKeys := ["ADA"]
    revisingSubmissionInfo := none
    hasPendingSubmission := false }

/-- The state reached from `c2s0` by submitting for review. -/
abbrev c2s1 : SessionState :=
  { submissions := [newSubmission "uni1" UserRole.UniversityID "id1" "t1" "English"
      c2s0 [adaEmptyGroup]]
    analysisResults := none
    programContent := ""
    selectedBodyKeys := []
    revisingSubmissionInfo := none
    hasPendingSubmission := true }

/-- C2 witness: the invariant theorem applied to the concrete run in which
the user uni1 submits one analysis for review. -/
theorem single_pending_submission_witness :
    countPendingBy "uni1" c2s1.submissions ≤ 1 ∧
    (0 < countPendingBy "uni1" c2s1.submissions → c2s1.analysisResults = none) ∧
    (c2s1.hasPendingSubmission = true → c2s1.revisingSubmissionInfo = none →
      jsTrim c2s1.programContent ≠ "" → c2s1.selectedBodyKeys ≠ [] →
      analysisGateError UserRole.UniversityID c2s1 =
        some "You have a submission pending review. Cannot start a new analysis.") :=
  single_pending_submission "uni1" c2s0 c2s1
    (by refine ⟨by decide, fun _ => by decide, ?_, fun _ => by decide⟩
        intro h; exact absurd rfl h)
    (Relation.ReflTransGen.single
      (Step.submitForReview c2s0 [adaEmptyGroup] "id1" "t1" "English" rfl (by decide)))

/-! ## C7: adding notes in the submission review modal -/

/-- Submissions whose id does not match are untouched by the store update. -/
theorem setNotesFirst_mem_other (subId : String) (ns : List SubmissionNote)
    (subs : List Submission) :
    ∀ s ∈ subs, s.id ≠ subId → s ∈ setNotesFirst subId ns subs := by
  induction subs with
  | nil => intro s hs; simp at hs
  | cons a rest ih =>
      intro s hs hid
      rcases List.mem_cons.mp hs with rfl | hrest
      · unfold setNotesFirst
        rw [if_neg hid]
        exact List.mem_cons_self _ _
      · unfold setNotesFirst
        by_cases ha : a.id = subId
        · rw [if_pos ha]; exact List.mem_cons_of_mem _ hrest
        · rw [if_neg ha]; exact List.mem_cons_of_mem _ (ih s hrest hid)

/-- When some stored submission matches, the store update replaces the
notes of such a submission with the given list. -/
theorem setNotesFirst_updates_first (subId : String) (ns : List SubmissionNote)
    (subs : List Submission)
    (h : subs.any (fun s => s.id == subId) = true) :
    ∃ t ∈ subs, t.id = subId ∧ { t with notes := ns } ∈ setNotesFirst subId ns subs := by
  induction subs with
  | nil => simp at h
  | cons a rest ih =>
      by_cases ha : a.id = subId
      · refine ⟨a, List.mem_cons_self _ _, ha, ?_⟩
        unfold setNotesFirst
        rw [if_pos ha]
        exact List.mem_cons_self _ _
      · have hfa : (a.id == subId) = false := beq_eq_false_iff_ne.mpr ha
        have h' : rest.any (fun s => s.id == subId) = true := by
          simpa [List.any_cons, hfa] using h
        obtain ⟨t, htm, htid, hmem⟩ := ih h'
        refine ⟨t, List.mem_cons_of_mem _ htm, htid, ?_⟩
        unfold setNotesFirst
        rw [if_neg ha]
        exact List.mem_cons_of_mem _ hmem

/-- A decided (approved) submission with one existing note. -/
def approvedSub : Submission :=
  { id := "s1"
    submittedByUsername := "uni1"
    submittedByUserRole := UserRole.UniversityID
    submittedAt := "t0"
    programContent := "content"
    programContentLanguage := "English"
    analysisResults := []
    selectedBodyKeys := ["ADA"]
    status := SubStatus.approved
    notes := [⟨"lead", UserRole.UniversityLead, "t0", "first note"⟩] }

/-- C7 counterexample: the claim says addNote fails with InvalidStateError
when the submission's status is not pending.  The handler `handleAddNote`
never consults the status: invoked on a session whose submission is already
approved, it does not fail — it appends the note to the session list and
persists it into the stored approved submission.  (The only freeze is the
UI not rendering the add-note form for decided submissions.) -/
theorem c7_note_added_despite_decided :
    approvedSub.status ≠ SubStatus.pending ∧
    handleAddNote "s1" ⟨"admin", UserRole.Admin⟩ "t1"
        { submissions := [approvedSub]
          currentSubmissionNotes := approvedSub.notes
          newNoteText := "late note" } =
      (AddNoteOutcome.persisted,
       { submissions := [{ approvedSub with notes := approvedSub.notes ++
            [⟨"admin", UserRole.Admin, "t1", "late note"⟩] }]
         currentSubmissionNotes := approvedSub.notes ++
            [⟨"admin", UserRole.Admin, "t1", "late note"⟩]
         newNoteText := "" }) := by
  exact ⟨by decide, by decide⟩

/-- C7 amended: `handleAddNote` never raises an invalid-state failure — the
freeze of notes on decided submissions is only the UI not rendering the
add-note form when the submission prop's status is not pending.  With empty
or whitespace text it alerts and changes nothing.  With non-empty text it
appends exactly one SubmissionNote, carrying the trimmed text, to the
session note list (previous notes left in place); when a stored submission
matches the id, that submission's notes are replaced by the appended list
and every other stored submission is untouched; when none matches, the
store is unchanged (though the session list still gained the note) and an
error alert is shown. -/
theorem handleAddNote_spec (subId : String) (user : User) (ts : String)
    (st : NoteSessionState) :
    (jsTrim st.newNoteText = "" →
      handleAddNote subId user ts st = (.emptyTextAlert, st)) ∧
    (jsTrim st.newNoteText ≠ "" →
      (handleAddNote subId user ts st).2.currentSubmissionNotes =
        st.currentSubmissionNotes ++
          [⟨user.username, user.role, ts, jsTrim st.newNoteText⟩]) ∧
    (jsTrim st.newNoteText ≠ "" →
      st.submissions.any (fun s => s.id == subId) = true →
      (handleAddNote subId user ts st).1 = AddNoteOutcome.persisted ∧
      (∃ t ∈ st.submissions, t.id = subId ∧
        { t with notes := st.currentSubmissionNotes ++
            [⟨user.username, user.role, ts, jsTrim st.newNoteText⟩] } ∈
          (handleAddNote subId user ts st).2.submissions) ∧
      (∀ s ∈ st.submissions, s.id ≠ subId →
        s ∈ (handleAddNote subId user ts st).2.submissions)) ∧
    (jsTrim st.newNoteText ≠ "" →
      st.submissions.any (fun s => s.id == subId) = false →
      handleAddNote subId user ts st =
        (.missingIdAlert,
         { st with currentSubmissionNotes := st.currentSubmissionNotes ++
             [⟨user.username, user.role, ts, jsTrim st.newNoteText⟩] })) ∧
    (∀ sub : Submission, sub.status ≠ SubStatus.pending →
      addNoteFormVisible sub = false) := by
  refine ⟨?_, ?_, ?_, ?_, ?_⟩
  · intro h
    simp [handleAddNote, h]
  · intro h
    by_cases hany : st.submissions.any (fun s => s.id == subId) = true
    · simp [handleAddNote, h, hany]
    · have hany' : st.submissions.any (fun s => s.id == subId) = false := by
        simpa using hany
      simp [handleAddNote, h, hany']
  · intro h hany
    have hsubs : (handleAddNote subId user ts st).2.submissions =
        setNotesFirst subId (st.currentSubmissionNotes ++
          [⟨user.username, user.role, ts, jsTrim st.newNoteText⟩]) st.submissions := by
      simp [handleAddNote, h, hany]
    refine ⟨by simp [handleAddNote, h, hany], ?_, ?_⟩
    · rw [hsubs]
      exact setNotesFirst_updates_first subId _ st.submissions hany
    · intro s hs hid
      rw [hsubs]
      exact setNotesFirst_mem_other subId _ st.submissions s hs hid
  · intro h hany
    simp [handleAddNote, h, hany]
  · intro sub hst
    simp [addNoteFormVisible, hst]

/-- A pending submission with one existing note, used in the C7 witness. -/
def pendingSub : Submission :=
  { id := "s1"
    submittedByUsername := "uni1"
    submittedByUserRole := UserRole.UniversityID
    submittedAt := "t0"
    programContent := "content"
    programContentLanguage := "English"
    analysisResults := []
    selectedBodyKeys := ["ADA"]
    status := SubStatus.pending
    notes := [⟨"lead", UserRole.UniversityLead, "t0", "first note"⟩] }

/-- Review-modal session opened on the pending submission, with a note
typed into the textarea (surrounded by whitespace, to exercise trimming). -/
def c7st : NoteSessionState :=
  { submissions := [pendingSub]
    currentSubmissionNotes := pendingSub.notes
    newNoteText := " second note " }

/-- C7 witness: the amended theorem applied to the pending-submission
session — the note is persisted with its trimmed text after the existing
note. -/
theorem handleAddNote_spec_witness :
    (handleAddNote "s1" ⟨"admin", UserRole.Admin⟩ "t1" c7st).1 =
      AddNoteOutcome.persisted ∧
    (handleAddNote "s1" ⟨"admin", UserRole.Admin⟩ "t1" c7st).2.currentSubmissionNotes =
      pendingSub.notes ++ [⟨"admin", UserRole.Admin, "t1", "second note"⟩] :=
  ⟨((handleAddNote_spec "s1" ⟨"admin", UserRole.Admin⟩ "t1" c7st).2.2.1
      (by decide) (by decide)).1,
   (handleAddNote_spec "s1" ⟨"admin", UserRole.Admin⟩ "t1" c7st).2.1 (by decide)⟩

end Accana
